import Mathlib

/-
Verification development for the periodic forecasting engine in
hydromet_forecasting/forecasting.py (class Forecaster).

The embedding models dates as integers (days since an arbitrary epoch, the
ordinal view of datetime.date), numeric values as rationals, and NaN-capable
cells as Option values (none = NaN).  The calendar operations provided by
FixedIndexTimeseries (shift_date_by_period, convert_to_annual_index, maxindex,
data_by_index) live in hydromet_forecasting/timeseries.py, which is not part of
the provided sources; they are kept abstract as a Calendar record of functions,
following the spec (section 4.1).  The sklearn estimator and StandardScaler and
the stldecompose routine are external collaborators (spec section 6); their
numeric behaviour is taken as a parameter record (Sklearn below), while their
fitted state is represented by the data they were fit on.
-/

set_option maxRecDepth 4000

namespace Hydromet

/-- Error conditions raised by the Forecaster code.  ValueError covers both the
python ValueError raises in the source and the ValueError raised inside sklearn
(StandardScaler.fit_transform on an empty array, KFold with bad n_splits).
The InsufficientData exception class of the source is split by its payload:
the annual index named by train (line 338), the target date named by predict
(line 372), and the two cross-validation messages (lines 409-419). -/
inductive PyErr where
  | valueError
  | assertionError
  | notFitted
  | insufficientDataIndex (i : Nat)
  | insufficientDataDate (d : Int)
  | insufficientDataCV
  | modelError
  deriving DecidableEq

/-- Distinguishes the InsufficientData exception class from the other error
classes of the source. -/
def PyErr.isInsufficientData : PyErr → Bool
  | .insufficientDataIndex _ => true
  | .insufficientDataDate _ => true
  | .insufficientDataCV => true
  | _ => false

instance {ε α : Type} [DecidableEq ε] [DecidableEq α] : DecidableEq (Except ε α) :=
  fun a b =>
    match a, b with
    | .ok x, .ok y =>
        if h : x = y then .isTrue (by rw [h])
        else .isFalse (fun hh => h (by cases hh; rfl))
    | .error x, .error y =>
        if h : x = y then .isTrue (by rw [h])
        else .isFalse (fun hh => h (by cases hh; rfl))
    | .ok _, .error _ => .isFalse (fun hh => Except.noConfusion hh)
    | .error _, .ok _ => .isFalse (fun hh => Except.noConfusion hh)

/-- Modelled from the spec: the period-calendar interface that class Forecaster
uses from FixedIndexTimeseries (hydromet_forecasting/timeseries.py, absent from
the provided sources).  Spec section 4.1: shift d k is the anchor date of the
period k periods after the one containing d (shift d 0 normalizes d to its own
period anchor), and annualIndex maps a date to its index in [1, maxindex]. -/
structure Calendar where
  maxindex : Nat
  shift : Int → Int → Int
  annualIndex : Int → Nat

/-- Modelled from the spec: a FixedIndexTimeseries value as class Forecaster
reads it — a calendar, a mode tag (compared by the predict type check), and an
ordered date-to-value mapping with unique dates; a stored NaN is none. -/
structure FITS where
  cal : Calendar
  mode : String
  ts : List (Int × Option ℚ)

/-- Value of a series at a date: a date with no entry yields NaN (none), as
does a stored NaN.  Mirrors the pandas reindex lookup used at source line
269-270. -/
def lookupVal (x : FITS) (d : Int) : Option ℚ :=
  (x.ts.lookup d).join

/-- Modelled from the spec: FixedIndexTimeseries.data_by_index, the rows of the
series whose date falls on the given annual index (spec section 3,
PeriodicSeries slicing by annual index).  Used by train for the seasonal
offsets (line 299) and by cross_validate for the per-index groups (line 400). -/
def dataByIndex (s : FITS) (i : Nat) : List (Int × Option ℚ) :=
  s.ts.filter (fun p => s.cal.annualIndex p.1 == i)

/-- Values of dataByIndex, as consumed by nanmean at source line 299. -/
def dataByIndexVals (s : FITS) (i : Nat) : List (Option ℚ) :=
  (dataByIndex s i).map (fun p => p.2)

/-- External numeric capabilities (spec section 6).  Fitted sklearn state is
represented by the data the object was fit on: a fitted StandardScaler by its
training matrix (its mean and deviation are functions of exactly that data),
and a fitted estimator by the standardized pair it received in fit.
transform and invTransform are the scaler routines given that state; mpredict
is estimator.predict applied to the single standardized row of a prediction
(a length-one array in the source; its sole entry here); fitTransformX and
fitTransformY are the standardized outputs of fit_transform on nonempty data;
nanmean is numpy.nanmean; decomp is stldecompose.decompose, returning the
trend-plus-residual rows and the seasonal rows over the same index. -/
structure Sklearn where
  transform : List (List ℚ) → List ℚ → List ℚ
  invTransform : List ℚ → ℚ → ℚ
  mpredict : List (List ℚ) × List ℚ → List ℚ → ℚ
  fitTransformX : List (List ℚ) → List (List ℚ)
  fitTransformY : List ℚ → List ℚ
  nanmean : List (Option ℚ) → ℚ
  decomp : List (Int × Option ℚ) → Nat → List (Int × Option ℚ) × List (Int × Option ℚ)

/-- State of a Forecaster instance (forecasting.py lines 151-219).  lag is the
stored self._lag, i.e. the NEGATION of the constructor argument (line 202).
Xscaler, yscaler and models hold one slot per partition; none is an unfit
(freshly cloned) object and some holds the data it was fit on.  trainingdates
is None before training (line 218). -/
structure Forecaster where
  lag : Int
  laglength : List Nat
  multimodel : Bool
  decompose : Bool
  maxindex : Nat
  y : FITS
  X : List FITS
  Xtype : List String
  seasonal : List ℚ
  Xscaler : List (Option (List (List ℚ)))
  yscaler : List (Option (List ℚ))
  models : List (Option (List (List ℚ) × List ℚ))
  trainingdates : Option (List Int)

/-- Forecaster.__init__ (lines 151-219).  The model argument is a fit-capable
template; partitions start with unfit clones of it, represented by none.
The non-list X and laglength normalizations (lines 195-198, 204-207) are
outside the embedding, which takes lists directly.  The laglength length check
raises ValueError (line 210); the nonempty-X assert raises AssertionError
(line 216).  maxindex is y.maxindex under multimodel and 1 otherwise (lines
181-186); seasonal starts as y.maxindex zeros (line 190); lag is negated
(line 202); the scalers are one StandardScaler per partition (lines 213-214);
trainingdates starts as None (line 218). -/
def mkForecaster (y : FITS) (X : List FITS) (laglength : List Nat) (lag : Int)
    (multimodel : Bool) (decompose : Bool) : Except PyErr Forecaster :=
  if laglength.length ≠ X.length then Except.error PyErr.valueError
  else if X.length = 0 then Except.error PyErr.assertionError
  else
    Except.ok
      { lag := -lag
        laglength := laglength
        multimodel := multimodel
        decompose := decompose
        maxindex := if multimodel then y.cal.maxindex else 1
        y := y
        X := X
        Xtype := X.map FITS.mode
        seasonal := List.replicate y.cal.maxindex 0
        Xscaler := List.replicate (if multimodel then y.cal.maxindex else 1) none
        yscaler := List.replicate (if multimodel then y.cal.maxindex else 1) none
        models := List.replicate (if multimodel then y.cal.maxindex else 1) none
        trainingdates := none }

/-- A placeholder Forecaster used only as the default of Option.getD when a
concrete engine is extracted from a constructor call that is known to
succeed. -/
def fcDefault : Forecaster :=
  { lag := 0, laglength := [], multimodel := false, decompose := false
    maxindex := 0, y := ⟨⟨0, fun d _ => d, fun _ => 1⟩, "", []⟩, X := []
    Xtype := [], seasonal := [], Xscaler := [], yscaler := [], models := []
    trainingdates := none }

instance : Inhabited Forecaster := ⟨fcDefault⟩

/-- The issue-date reference of _aggregate_featuredates (lines 236-238): when
the stored lag is negative the target date is first rolled back one target
period, then normalized to its period anchor, then the stored lag is
subtracted as days (datetime.timedelta). -/
def issueDate (f : Forecaster) (targetdate : Int) : Int :=
  let t1 := if f.lag < 0 then f.y.cal.shift targetdate (-1) else targetdate
  f.y.cal.shift t1 0 - f.lag

/-- Forecaster._aggregate_featuredates (lines 221-246): per feature series,
the anchors obtained by shifting the issue-date reference back by 1..laglength
periods in that features own calendar, most recent first.  The loop enumerates
X and indexes laglength in step, i.e. a zipWith; the local x_targetdate of
line 241 is assigned but never used in the source and is dropped here. -/
def aggregateFeaturedates (f : Forecaster) (targetdate : Int) : List (List Int) :=
  List.zipWith
    (fun (x : FITS) (L : Nat) =>
      (List.range L).map (fun (s : Nat) => x.cal.shift (issueDate f targetdate) (-(1 + (s : Int)))))
    f.X f.laglength

/-- Claim C1 reading of the feature-date aggregation: identical pipeline, but
the one-period rollback is applied exactly when the lag the engine was
CONFIGURED with (the constructor argument, i.e. the negation of the stored
self._lag) is negative. -/
def aggregateFeaturedatesClaimed (f : Forecaster) (targetdate : Int) : List (List Int) :=
  let t1 := if -f.lag < 0 then f.y.cal.shift targetdate (-1) else targetdate
  let t2 := f.y.cal.shift t1 0 - f.lag
  List.zipWith
    (fun (x : FITS) (L : Nat) =>
      (List.range L).map (fun (s : Nat) => x.cal.shift t2 (-(1 + (s : Int)))))
    f.X f.laglength

/-- numpy slice assignment buf[k : k + vals.length] = vals, exact when
k + vals.length does not exceed the buffer length, which holds at every call
site of _aggregate_features. -/
def setSeg (buf : List (Option ℚ)) (k : Nat) (vals : List (Option ℚ)) : List (Option ℚ) :=
  buf.take k ++ vals ++ buf.drop (k + vals.length)

/-- The write loop of _aggregate_features (lines 267-273): for each feature i,
the values at featuredates[i] are written into the buffer at offset k, and k
advances by laglength[i].  The source enumerates X, indexing featuredates and
laglength positionally; every call site passes three lists of equal length. -/
def aggLoop (X : List FITS) (featuredates : List (List Int)) (laglength : List Nat)
    (buf : List (Option ℚ)) (k : Nat) : List (Option ℚ) :=
  match X, featuredates, laglength with
  | x :: xs, ds :: dss, L :: Ls =>
      aggLoop xs dss Ls (setSeg buf k (ds.map (lookupVal x))) (k + L)
  | _, _, _ => buf

/-- Forecaster._aggregate_features (lines 248-274): a buffer of sum(laglength)
NaN slots, filled feature by feature with the series values at the required
dates; a date with no entry leaves NaN at its slot (pandas reindex).  The
try/except KeyError of the source never fires on the reindex-based lookup and
is dropped. -/
def aggregateFeatures (f : Forecaster) (featuredates : List (List Int)) (X : List FITS) :
    List (Option ℚ) :=
  aggLoop X featuredates f.laglength (List.replicate f.laglength.sum none) 0

/-- The sample-collection loop of train (lines 301-318): walk the (possibly
decomposed) target series in order; for each (date, value) row compute the
annual index (1 when not multimodel), the feature dates and the feature
vector, and keep the row when neither the target value nor any feature slot
is NaN, appending to the per-partition buckets and to the training dates. -/
def collectSamples (f : Forecaster) (ts : List (Int × Option ℚ)) (cal : Calendar) :
    List (List (List ℚ)) × List (List ℚ) × List Int :=
  ts.foldl
    (fun acc p =>
      let ai := if f.multimodel then cal.annualIndex p.1 else 1
      let fds := aggregateFeaturedates f p.1
      let Xv := aggregateFeatures f fds f.X
      match p.2 with
      | some yv =>
          if Xv.all (fun v => v.isSome) then
            (acc.1.set (ai - 1) (acc.1.getD (ai - 1) [] ++ [Xv.reduceOption]),
             acc.2.1.set (ai - 1) (acc.2.1.getD (ai - 1) [] ++ [yv]),
             acc.2.2 ++ [p.1])
          else acc
      | none => acc)
    (List.replicate f.maxindex [], List.replicate f.maxindex [], [])

/-- The per-partition fitting loop of train (lines 322-338).  For partition i
the source first calls X_scaler[i].fit_transform and y_scaler[i].fit_transform
on the collected arrays and only afterwards tests len(y_set) > 0: sklearn
check_array requires at least one sample, so fit_transform on an empty
partition raises ValueError before the InsufficientData raise of line 337 can
be reached; that sklearn behaviour is modelled by the two isEmpty checks.
A successful partition stores the fitted scalers and fits the partition model
on the standardized data. -/
def fitParts (sk : Sklearn) : Nat → List (List (List ℚ)) → List (List ℚ) → Forecaster →
    Forecaster × Except PyErr Unit
  | _, [], _, f => (f, Except.ok ())
  | _, _ :: _, [], f => (f, Except.ok ())
  | i, xi :: xs, yi :: ys, f =>
    if xi.isEmpty then (f, Except.error PyErr.valueError)
    else
      let f1 : Forecaster := { f with Xscaler := f.Xscaler.set i (some xi) }
      if yi.isEmpty then (f1, Except.error PyErr.valueError)
      else
        let f2 : Forecaster := { f1 with yscaler := f1.yscaler.set i (some yi) }
        let yset := sk.fitTransformY yi
        if 0 < yset.length then
          fitParts sk (i + 1) xs ys
            { f2 with models := f2.models.set i (some (sk.fitTransformX xi, yset)) }
        else (f2, Except.error (PyErr.insufficientDataIndex (i + 1)))

/-- Forecaster.train (lines 276-338).  Returns the post-call state together
with the outcome, since the source mutates self even when it raises: when
decompose is set and the seasonal table is longer than one entry, the target
is replaced by trend plus residual of the decomposition and the seasonal
offsets become the nanmean of the seasonal component per annual index (lines
294-299); the samples are then collected, trainingdates is OVERWRITTEN before
any partition is fitted (line 320), and the partitions are fitted in order. -/
def train (sk : Sklearn) (f : Forecaster) (yArg : Option FITS) :
    Forecaster × Except PyErr Unit :=
  let y := yArg.getD f.y
  let freq := f.seasonal.length
  let p :=
    if f.decompose = true ∧ 1 < freq then
      let ds := sk.decomp y.ts freq
      let seas := (List.range freq).map
        (fun i => sk.nanmean (dataByIndexVals ({ y with ts := ds.2 } : FITS) (i + 1)))
      (({ y with ts := ds.1 } : FITS), ({ f with seasonal := seas } : Forecaster))
    else (y, f)
  let c := collectSamples p.2 p.1.ts p.1.cal
  fitParts sk 0 c.1 c.2.1 ({ p.2 with trainingdates := some c.2.2 } : Forecaster)

/-- Forecaster.predict (lines 340-377).  The feature-series type check comes
first (lines 357-360, ValueError); feature dates, the annual index and the
feature vector are computed unconditionally; a falsy trainingdates (None, or
an empty list) raises ModelError (lines 368-370); any NaN slot raises
InsufficientData naming the target date (lines 371-372); otherwise the row is
standardized with the partition scaler, predicted, inverse-transformed as a
(1,1) array and the seasonal offset of the target-date annual index is added:
the source returns that 1x1 array, modelled as a one-element nested list.
An unfit partition object would raise sklearn NotFittedError (possible only
after a partially failed train).  The annual index is within [1, maxindex]
for calendars satisfying the spec invariant; python IndexError on an
out-of-range partition index is not modelled. -/
def predict (sk : Sklearn) (f : Forecaster) (targetdate : Int) (X : List FITS) :
    Except PyErr (List (List ℚ)) :=
  if X.map FITS.mode ≠ f.Xtype then Except.error PyErr.valueError
  else
    let featuredates := aggregateFeaturedates f targetdate
    let ai := if f.multimodel then f.y.cal.annualIndex targetdate else 1
    let Xv := aggregateFeatures f featuredates X
    if (f.trainingdates.getD []).isEmpty then Except.error PyErr.modelError
    else if Xv.any (fun v => v.isNone) then Except.error (PyErr.insufficientDataDate targetdate)
    else
      match f.Xscaler.getD (ai - 1) none, f.yscaler.getD (ai - 1) none,
          f.models.getD (ai - 1) none with
      | some xsc, some ysc, some m =>
          let xrow := sk.transform xsc Xv.reduceOption
          let pred := sk.mpredict m xrow
          let inv := sk.invTransform ysc pred
          Except.ok [[inv + f.seasonal.getD (f.y.cal.annualIndex targetdate - 1) 0]]
      | _, _, _ => Except.error PyErr.notFitted

/-- A python 2 runtime value that is either an int or a list of ints, as they
meet in the expression min(groupsize, 10) at source line 407 (the repository
is python 2: iteritems, list-returning map, string-format raises). -/
inductive Py2Val where
  | int : Int → Py2Val
  | list : List Int → Py2Val

/-- Python 2 lexicographic comparison of two int lists. -/
def listLtInt : List Int → List Int → Bool
  | [], [] => false
  | [], _ :: _ => true
  | _ :: _, [] => false
  | a :: as_, b :: bs => if a < b then true else if b < a then false else listLtInt as_ bs

/-- The python 2 default cross-type comparison, restricted to the two types
that occur at source line 407: numbers compare below every non-numeric object
(CPython 2 default_3way_compare treats a number as having the empty type
name), so an int is always less than a list. -/
def py2Lt : Py2Val → Py2Val → Bool
  | .int a, .int b => a < b
  | .int _, .list _ => true
  | .list _, .int _ => false
  | .list a, .list b => listLtInt a b

/-- Two-argument python min: returns the second argument when it compares
strictly below the first, else the first. -/
def py2min2 (a b : Py2Val) : Py2Val :=
  if py2Lt b a then b else a

/-- The k_fold argument of cross_validate: the string auto, or an int.
Arguments of other python types fail the isinstance check of line 412 just as
k_fold == 1 does and are not modelled separately. -/
inductive KfoldArg where
  | auto
  | val : Int → KfoldArg

/-- The k_fold resolution of cross_validate (lines 404-419).  groupsize is the
list of per-group sample counts.  For auto, the source computes
min(groupsize, 10): under python 2 this is the two-argument min of a list and
an int, which is always the int 10, so the k_fold == 1 insufficiency branch
of line 408 is unreachable.  An explicit k_fold of 1 (or a non-int) raises
ValueError; an explicit k_fold larger than some group raises
InsufficientData. -/
def resolveKfold (groupsize : List Nat) (k : KfoldArg) : Except PyErr Int :=
  match k with
  | .auto =>
      match py2min2 (.list (groupsize.map Int.ofNat)) (.int 10) with
      | .int kf => if kf = 1 then Except.error PyErr.insufficientDataCV else Except.ok kf
      | .list _ => Except.error PyErr.valueError
  | .val n =>
      if n = 1 then Except.error PyErr.valueError
      else if ¬ groupsize.all (fun s => n ≤ (s : Int)) then Except.error PyErr.insufficientDataCV
      else Except.ok n

/-- Start of the test block of sklearn KFold(n_splits=k, shuffle=False) fold
j over n samples: the first n mod k folds get one extra sample. -/
def kfoldTestStart (n k j : Nat) : Nat :=
  j * (n / k) + min j (n % k)

/-- Size of the test block of sklearn KFold fold j over n samples. -/
def kfoldTestLen (n k j : Nat) : Nat :=
  n / k + (if j < n % k then 1 else 0)

/-- sklearn KFold(shuffle=False) fold j over n samples: the (train indices,
test indices) pair, test contiguous and train the ordered complement. -/
def kfoldSplit (n k j : Nat) : List Nat × List Nat :=
  let s := kfoldTestStart n k j
  let m := kfoldTestLen n k j
  ((List.range n).filter (fun i => i < s ∨ s + m ≤ i),
   (List.range m).map (fun i => i + s))

/-- pandas positional row selection g[indices]. -/
def selectRows (g : List (Int × Option ℚ)) (idx : List Nat) : List (Int × Option ℚ) :=
  idx.filterMap (fun i => g[i]?)

/-- The per-fold engine construction of cross_validate (lines 445-446): a new
Forecaster over the fold training rows (a FixedIndexTimeseries built with the
mode, hence the calendar, of the parent target), the parent feature list and
laglength, and — crucially — the parent self._lag passed as the lag argument,
which __init__ negates again.  The cloned estimator template is the unfit
model state. -/
def cvFoldEngine (f : Forecaster) (trainingset : List (Int × Option ℚ)) :
    Except PyErr Forecaster :=
  mkForecaster ({ cal := f.y.cal, mode := f.y.mode, ts := trainingset } : FITS)
    f.X f.laglength f.lag f.multimodel f.decompose

/-- Insertion of a dated prediction keeping dates ascending. -/
def insertByDate (p : Int × ℚ) : List (Int × ℚ) → List (Int × ℚ)
  | [] => [p]
  | q :: qs => if p.1 ≤ q.1 then p :: q :: qs else q :: insertByDate p qs

/-- pandas sort_index over the collected (date, prediction) pairs. -/
def sortByDate (l : List (Int × ℚ)) : List (Int × ℚ) :=
  l.foldr insertByDate []

/-- Modelled from the spec: the Evaluator of hydromet_forecasting/evaluating.py
(absent from the provided sources) as cross_validate returns it — it holds the
true target series and the predicted series (spec section 2, SkillEvaluator). -/
structure Evaluator where
  targeted : FITS
  predicted : FITS

/-- Forecaster.cross_validate (lines 390-456).  Groups the target rows by
annual index (one group when not multimodel), resolves k_fold, validates
n_splits at KFold construction (sklearn requires at least 2), splits every
group of more than one row with KFold — kf.split raises ValueError when
n_splits exceeds the group size; groups of at most one row are silently
skipped — accumulates per-fold train and test row sets, then per fold builds
a fresh engine (cvFoldEngine), trains it (train errors propagate) and
predicts each held-out date, skipping any prediction that raises (the bare
except of line 452); the kept predictions are the [0,0] entries of the
returned 1x1 arrays.  The result pairs the parent target series with the
date-sorted predictions.  The progress printing is a no-op here.  The
trained state of the parent engine is never consulted. -/
def crossValidate (sk : Sklearn) (f : Forecaster) (karg : KfoldArg) :
    Except PyErr Evaluator :=
  let ygroups :=
    if f.multimodel then (List.range f.maxindex).map (fun i => dataByIndex f.y (i + 1))
    else [f.y.ts]
  let groupsize := ygroups.map List.length
  match resolveKfold groupsize karg with
  | Except.error e => Except.error e
  | Except.ok kfI =>
    if kfI < 2 then Except.error PyErr.valueError
    else
      let kn := kfI.toNat
      let ttE := ygroups.foldl
        (fun (acc : Except PyErr (List (List (Int × Option ℚ)) × List (List (Int × Option ℚ)))) g =>
          match acc with
          | Except.error e => Except.error e
          | Except.ok (tr, te) =>
            if 1 < g.length then
              if g.length < kn then Except.error PyErr.valueError
              else
                Except.ok
                  ((List.range kn).map
                     (fun j => tr.getD j [] ++ selectRows g (kfoldSplit g.length kn j).1),
                   (List.range kn).map
                     (fun j => te.getD j [] ++ selectRows g (kfoldSplit g.length kn j).2))
            else Except.ok (tr, te))
        (Except.ok (List.replicate kn [], List.replicate kn []))
      match ttE with
      | Except.error e => Except.error e
      | Except.ok (tr, te) =>
        let res := (List.range kn).foldl
          (fun (acc : Except PyErr (List (Int × ℚ))) j =>
            match acc with
            | Except.error e => Except.error e
            | Except.ok preds =>
              match cvFoldEngine f (tr.getD j []) with
              | Except.error e => Except.error e
              | Except.ok fc =>
                match train sk fc none with
                | (fc2, Except.ok _) =>
                    Except.ok (preds ++ (te.getD j []).filterMap
                      (fun p =>
                        match predict sk fc2 p.1 f.X with
                        | Except.ok m => some (p.1, (m.getD 0 []).getD 0 0)
                        | Except.error _ => none))
                | (_, Except.error e) => Except.error e)
          (Except.ok [])
        match res with
        | Except.error e => Except.error e
        | Except.ok preds =>
          Except.ok
            { targeted := f.y
              predicted :=
                { cal := f.y.cal, mode := f.y.mode
                  ts := (sortByDate preds).map (fun p => (p.1, some p.2)) } }

/-- A concrete external-capability record used by the concrete evaluations:
identity scalers, a constant-zero estimator, zero nanmean and an identity
decomposition.  Every concrete theorem below that quantifies over the
capabilities is instantiated with it. -/
def skId : Sklearn :=
  { transform := fun _ r => r
    invTransform := fun _ v => v
    mpredict := fun _ _ => 0
    fitTransformX := fun m => m
    fitTransformY := fun v => v
    nanmean := fun _ => 0
    decomp := fun ts _ => (ts, ts) }

/-- A concrete test calendar with 30-day periods and m periods per year:
anchors are the multiples of 30, shift moves between anchors, and the annual
index cycles through 1..m. -/
def cal30 (m : Nat) : Calendar :=
  { maxindex := m
    shift := fun d k => 30 * d.fdiv 30 + 30 * k
    annualIndex := fun d => ((d.fdiv 30).emod (Int.ofNat m)).toNat + 1 }

/-- Concrete target series for the lag-convention scenarios (the aggregation
functions read only the calendar, so no rows are needed). -/
def yLagSc : FITS := { cal := cal30 12, mode := "t", ts := [] }

/-- Concrete feature series for the lag-convention scenarios. -/
def xLagSc : FITS := { cal := cal30 12, mode := "f", ts := [] }

/-- Concrete engine configured with caller lag 40 (stored lag -40). -/
def fLagSc : Forecaster :=
  (mkForecaster yLagSc [xLagSc] [1] 40 true false).toOption.getD fcDefault

/-- Concrete target series over a two-index calendar in which only annual
index 1 ever occurs, so partition 2 collects no samples. -/
def yPart : FITS := { cal := cal30 2, mode := "t", ts := [(0, some 5), (60, some 7)] }

/-- Concrete feature series covering the lookback dates of yPart. -/
def xPart : FITS := { cal := cal30 2, mode := "f", ts := [(-30, some 1), (30, some 2)] }

/-- Concrete multimodel engine whose second partition collects zero samples. -/
def fPart : Forecaster :=
  (mkForecaster yPart [xPart] [1] 0 true false).toOption.getD fcDefault

/-- Concrete single-period target series: four rows on a maxindex-1
calendar. -/
def yOne : FITS :=
  { cal := cal30 1, mode := "t"
    ts := [(0, some 1), (30, some 2), (60, some 3), (90, some 4)] }

/-- Concrete feature series covering every lookback date of yOne. -/
def xOne : FITS :=
  { cal := cal30 1, mode := "f"
    ts := [(-30, some 1), (0, some 2), (30, some 3), (60, some 4), (90, some 5)] }

/-- Concrete non-multimodel engine over yOne, never trained. -/
def fOne : Forecaster :=
  (mkForecaster yOne [xOne] [1] 0 false false).toOption.getD fcDefault

/-- Concrete engine on the maxindex-1 calendar with decompose enabled. -/
def fDec1 : Forecaster :=
  (mkForecaster yOne [xOne] [1] 0 true true).toOption.getD fcDefault

/-- The decompose-disabled twin of fDec1. -/
def fDec0 : Forecaster :=
  (mkForecaster yOne [xOne] [1] 0 true false).toOption.getD fcDefault

/-- Concrete engine with one feature of laglength 2, for the layout
scenario. -/
def fLay : Forecaster :=
  (mkForecaster yLagSc [xLagSc] [2] 0 true false).toOption.getD fcDefault

/-- The concrete fold engine that cross_validate builds from fLagSc. -/
def fcFold : Forecaster :=
  (cvFoldEngine fLagSc []).toOption.getD fcDefault

/-- The state of fOne after a successful training call. -/
def fOneT : Forecaster := (train skId fOne none).1

theorem take_len_app {α : Type} (a b : List α) : (a ++ b).take a.length = a :=
  List.take_left a b

theorem drop_len_app {α : Type} (a b : List α) (n : Nat) :
    (a ++ b).drop (a.length + n) = b.drop n := by
  simp [List.drop_append]

theorem aggLoop_eq_flatten :
    ∀ (lagl : List Nat) (X : List FITS) (fds : List (List Int)) (pre : List (Option ℚ)),
      X.length = lagl.length → fds.length = lagl.length →
      (∀ (i : Nat) (ds : List Int) (L : Nat), fds[i]? = some ds → lagl[i]? = some L → ds.length = L) →
      aggLoop X fds lagl (pre ++ List.replicate lagl.sum none) pre.length
        = pre ++ (List.zipWith (fun x ds => ds.map (lookupVal x)) X fds).flatten := by
  intro lagl
  induction lagl with
  | nil =>
    intro X fds pre h1 h2 _
    have hX : X = [] := List.length_eq_zero.mp (by simpa using h1)
    have hf : fds = [] := List.length_eq_zero.mp (by simpa using h2)
    subst hX; subst hf
    simp [aggLoop]
  | cons L Ls ih =>
    intro X fds pre h1 h2 h3
    cases X with
    | nil => simp at h1
    | cons x xs =>
      cases fds with
      | nil => simp at h2
      | cons ds dss =>
        have hds : ds.length = L := h3 0 ds L (by simp) (by simp)
        have hvlen : (ds.map (lookupVal x)).length = L := by simp [hds]
        have hseg :
            setSeg (pre ++ List.replicate (L :: Ls).sum none) pre.length
                (ds.map (lookupVal x))
              = (pre ++ ds.map (lookupVal x)) ++ List.replicate Ls.sum none := by
          unfold setSeg
          rw [take_len_app, hvlen, List.sum_cons, drop_len_app, List.drop_replicate,
            Nat.add_sub_cancel_left, List.append_assoc]
        have hlen2 : (pre ++ ds.map (lookupVal x)).length = pre.length + L := by
          simp [hvlen]
        have h1b : xs.length = Ls.length := by simpa using h1
        have h2b : dss.length = Ls.length := by simpa using h2
        have h3b : ∀ (i : Nat) (ds2 : List Int) (L2 : Nat), dss[i]? = some ds2 → Ls[i]? = some L2 → ds2.length = L2 :=
          fun i ds2 L2 ha hb => h3 (i + 1) ds2 L2 (by simpa using ha) (by simpa using hb)
        have step := ih xs dss (pre ++ ds.map (lookupVal x)) h1b h2b h3b
        simp only [aggLoop]
        rw [hseg, show pre.length + L = (pre ++ ds.map (lookupVal x)).length from hlen2.symm,
          step]
        simp [List.append_assoc]

theorem flatten_getElem_block :
    ∀ (Bs : List (List (Option ℚ))) (lagl : List Nat),
      (∀ (j : Nat) (bj : List (Option ℚ)) (Lj : Nat), Bs[j]? = some bj → lagl[j]? = some Lj → bj.length = Lj) →
      ∀ (i : Nat) (b : List (Option ℚ)) (L : Nat) (s : Nat) (v : Option ℚ), Bs[i]? = some b → lagl[i]? = some L → b[s]? = some v →
        Bs.flatten[(lagl.take i).sum + s]? = some v := by
  intro Bs
  induction Bs with
  | nil =>
    intro lagl hB i b L s v hb _ _
    simp at hb
  | cons b0 rest ih =>
    intro lagl hB i b L s v hb hL hs
    cases lagl with
    | nil => simp at hL
    | cons L0 Ls =>
      cases i with
      | zero =>
        have hb0 : b0 = b := by simpa using hb
        subst hb0
        have hslt : s < b0.length := (List.getElem?_eq_some.mp hs).1
        simp only [List.flatten_cons, List.take_zero, List.sum_nil, Nat.zero_add]
        rw [List.getElem?_append_left hslt]
        exact hs
      | succ i =>
        have hlen0 : b0.length = L0 := hB 0 b0 L0 (by simp) (by simp)
        have hb2 : rest[i]? = some b := by simpa using hb
        have hL2 : Ls[i]? = some L := by simpa using hL
        have hB2 : ∀ (j : Nat) (bj : List (Option ℚ)) (Lj : Nat), rest[j]? = some bj → Ls[j]? = some Lj → bj.length = Lj :=
          fun j bj Lj h4 h5 => hB (j + 1) bj Lj (by simpa using h4) (by simpa using h5)
        have ihv := ih Ls hB2 i b L s v hb2 hL2 hs
        simp only [List.flatten_cons, List.take_succ_cons, List.sum_cons]
        have harith : L0 + (Ls.take i).sum + s = b0.length + ((Ls.take i).sum + s) := by
          omega
        rw [harith, List.getElem?_append_right (Nat.le_add_right _ _), Nat.add_sub_cancel_left]
        exact ihv

theorem getElem?_zipWith_some {α β γ : Type} (g : α → β → γ) :
    ∀ (as_ : List α) (bs : List β) (i : Nat) (a : α) (b : β),
      as_[i]? = some a → bs[i]? = some b → (List.zipWith g as_ bs)[i]? = some (g a b) := by
  intro as_
  induction as_ with
  | nil => intro bs i a b ha _; simp at ha
  | cons a0 as2 ih =>
    intro bs i a b ha hb
    cases bs with
    | nil => simp at hb
    | cons b0 bs2 =>
      cases i with
      | zero =>
        have e1 : a0 = a := by simpa using ha
        have e2 : b0 = b := by simpa using hb
        subst e1; subst e2
        simp
      | succ i => simpa using ih bs2 i a b (by simpa using ha) (by simpa using hb)

theorem getElem?_zipWith_inv {α β γ : Type} (g : α → β → γ) :
    ∀ (as_ : List α) (bs : List β) (i : Nat) (c : γ),
      (List.zipWith g as_ bs)[i]? = some c →
      ∃ a b, as_[i]? = some a ∧ bs[i]? = some b ∧ c = g a b := by
  intro as_
  induction as_ with
  | nil => intro bs i c hc; simp at hc
  | cons a0 as2 ih =>
    intro bs i c hc
    cases bs with
    | nil => simp at hc
    | cons b0 bs2 =>
      cases i with
      | zero =>
        refine ⟨a0, b0, by simp, by simp, ?_⟩
        have : g a0 b0 = c := by simpa using hc
        exact this.symm
      | succ i =>
        obtain ⟨a, b, h4, h5, h6⟩ := ih bs2 i c (by simpa using hc)
        exact ⟨a, b, by simpa using h4, by simpa using h5, h6⟩

theorem aggregateFeatures_eq_flatten (f : Forecaster) (fds : List (List Int)) (X : List FITS)
    (h1 : X.length = f.laglength.length) (h2 : fds.length = f.laglength.length)
    (h3 : ∀ (i : Nat) (ds : List Int) (L : Nat), fds[i]? = some ds → f.laglength[i]? = some L → ds.length = L) :
    aggregateFeatures f fds X
      = (List.zipWith (fun x ds => ds.map (lookupVal x)) X fds).flatten := by
  have step := aggLoop_eq_flatten f.laglength X fds [] h1 h2 h3
  simpa [aggregateFeatures] using step

theorem zipWith_blocks_length :
    ∀ (lagl : List Nat) (X : List FITS) (fds : List (List Int)),
      X.length = lagl.length → fds.length = lagl.length →
      (∀ (i : Nat) (ds : List Int) (L : Nat), fds[i]? = some ds → lagl[i]? = some L → ds.length = L) →
      (List.zipWith (fun x ds => ds.map (lookupVal x)) X fds).map List.length = lagl := by
  intro lagl
  induction lagl with
  | nil =>
    intro X fds h1 h2 _
    have hX : X = [] := List.length_eq_zero.mp (by simpa using h1)
    subst hX
    simp
  | cons L Ls ih =>
    intro X fds h1 h2 h3
    cases X with
    | nil => simp at h1
    | cons x xs =>
      cases fds with
      | nil => simp at h2
      | cons ds dss =>
        have hds : ds.length = L := h3 0 ds L (by simp) (by simp)
        have tail := ih xs dss (by simpa using h1) (by simpa using h2)
          (fun i ds2 L2 ha hb => h3 (i + 1) ds2 L2 (by simpa using ha) (by simpa using hb))
        simp [hds, tail]

theorem aggregateFeatures_length (f : Forecaster) (fds : List (List Int)) (X : List FITS)
    (h1 : X.length = f.laglength.length) (h2 : fds.length = f.laglength.length)
    (h3 : ∀ (i : Nat) (ds : List Int) (L : Nat), fds[i]? = some ds → f.laglength[i]? = some L → ds.length = L) :
    (aggregateFeatures f fds X).length = f.laglength.sum := by
  rw [aggregateFeatures_eq_flatten f fds X h1 h2 h3, List.length_flatten,
    zipWith_blocks_length f.laglength X fds h1 h2 h3]

theorem aggregateFeatures_getElem (f : Forecaster) (fds : List (List Int)) (X : List FITS)
    (h1 : X.length = f.laglength.length) (h2 : fds.length = f.laglength.length)
    (h3 : ∀ (i : Nat) (ds : List Int) (L : Nat),
      fds[i]? = some ds → f.laglength[i]? = some L → ds.length = L)
    (i : Nat) (x : FITS) (ds : List Int) (L : Nat) (s : Nat) (d : Int)
    (hx : X[i]? = some x) (hds : fds[i]? = some ds) (hL : f.laglength[i]? = some L)
    (hd : ds[s]? = some d) :
    (aggregateFeatures f fds X)[(f.laglength.take i).sum + s]? = some (lookupVal x d) := by
  rw [aggregateFeatures_eq_flatten f fds X h1 h2 h3]
  have hB : ∀ (j : Nat) (bj : List (Option ℚ)) (Lj : Nat),
      (List.zipWith (fun x2 ds2 => ds2.map (lookupVal x2)) X fds)[j]? = some bj →
      f.laglength[j]? = some Lj → bj.length = Lj := by
    intro j bj Lj hbj hLj
    obtain ⟨x2, ds2, hx2, hds2, he⟩ := getElem?_zipWith_inv _ X fds j bj hbj
    subst he
    simpa using h3 j ds2 Lj hds2 hLj
  have hblock := getElem?_zipWith_some (fun x2 ds2 => ds2.map (lookupVal x2)) X fds i x ds hx hds
  have hv : (ds.map (lookupVal x))[s]? = some (lookupVal x d) := by
    rw [List.getElem?_map, hd]
    rfl
  exact flatten_getElem_block _ f.laglength hB i (ds.map (lookupVal x)) L s (lookupVal x d)
    hblock hL hv

theorem mkForecaster_ok (y : FITS) (X : List FITS) (laglength : List Nat) (lag : Int)
    (multimodel decompose : Bool) (f : Forecaster)
    (h : mkForecaster y X laglength lag multimodel decompose = Except.ok f) :
    f = { lag := -lag, laglength := laglength, multimodel := multimodel
          decompose := decompose
          maxindex := if multimodel then y.cal.maxindex else 1
          y := y, X := X, Xtype := X.map FITS.mode
          seasonal := List.replicate y.cal.maxindex 0
          Xscaler := List.replicate (if multimodel then y.cal.maxindex else 1) none
          yscaler := List.replicate (if multimodel then y.cal.maxindex else 1) none
          models := List.replicate (if multimodel then y.cal.maxindex else 1) none
          trainingdates := none } := by
  unfold mkForecaster at h
  split at h
  · exact absurd h (by simp)
  · split at h
    · exact absurd h (by simp)
    · injection h with h2
      exact h2.symm

theorem fitParts_fields (sk : Sklearn) :
    ∀ (xb : List (List (List ℚ))) (yb : List (List ℚ)) (i : Nat) (f : Forecaster),
      (fitParts sk i xb yb f).1.seasonal = f.seasonal ∧
      (fitParts sk i xb yb f).1.trainingdates = f.trainingdates ∧
      (fitParts sk i xb yb f).1.Xtype = f.Xtype := by
  intro xb
  induction xb with
  | nil => intro yb i f; exact ⟨rfl, rfl, rfl⟩
  | cons xi xs ih =>
    intro yb i f
    cases yb with
    | nil => exact ⟨rfl, rfl, rfl⟩
    | cons yi ys =>
      simp only [fitParts]
      by_cases hx : xi.isEmpty
      · simp [hx]
      · by_cases hy : yi.isEmpty
        · simp [hx, hy]
        · by_cases hl : 0 < (sk.fitTransformY yi).length
          · simpa [hx, hy, hl] using ih ys (i + 1) _
          · simp [hx, hy, hl]

theorem fitParts_decomp (sk : Sklearn) :
    ∀ (xb : List (List (List ℚ))) (yb : List (List ℚ)) (i : Nat) (g : Forecaster) (b : Bool),
      fitParts sk i xb yb ({ g with decompose := b })
        = ({ (fitParts sk i xb yb g).1 with decompose := b }, (fitParts sk i xb yb g).2) := by
  intro xb
  induction xb with
  | nil => intro yb i g b; rfl
  | cons xi xs ih =>
    intro yb i g b
    cases yb with
    | nil => rfl
    | cons yi ys =>
      simp only [fitParts]
      by_cases hx : xi.isEmpty
      · simp [hx]
      · by_cases hy : yi.isEmpty
        · simp [hx, hy]
        · by_cases hl : 0 < (sk.fitTransformY yi).length
          · simp only [hx, hy, hl, if_true, if_false, Bool.false_eq_true, ite_true, ite_false]
            exact ih ys (i + 1)
              ({ g with
                  Xscaler := g.Xscaler.set i (some xi)
                  yscaler := g.yscaler.set i (some yi)
                  models := g.models.set i (some (sk.fitTransformX xi, sk.fitTransformY yi)) }) b
          · simp [hx, hy, hl]

theorem train_decomp (sk : Sklearn) (g : Forecaster) (yArg : Option FITS) (b : Bool)
    (h : g.seasonal.length ≤ 1) :
    train sk ({ g with decompose := b }) yArg
      = ({ (train sk g yArg).1 with decompose := b }, (train sk g yArg).2) := by
  unfold train
  simp only []
  rw [if_neg (fun hc => absurd hc.2 (by omega)), if_neg (fun hc => absurd hc.2 (by omega))]
  exact fitParts_decomp sk
    (collectSamples g (yArg.getD g.y).ts (yArg.getD g.y).cal).1
    (collectSamples g (yArg.getD g.y).ts (yArg.getD g.y).cal).2.1
    0
    ({ g with trainingdates := some (collectSamples g (yArg.getD g.y).ts (yArg.getD g.y).cal).2.2 })
    b

theorem train_seasonal (sk : Sklearn) (g : Forecaster) (yArg : Option FITS)
    (h : ¬(g.decompose = true ∧ 1 < g.seasonal.length)) :
    (train sk g yArg).1.seasonal = g.seasonal := by
  unfold train
  simp only []
  rw [if_neg h]
  exact (fitParts_fields sk _ _ 0 _).1

theorem train_trainingdates (sk : Sklearn) (g : Forecaster) (yArg : Option FITS) :
    ∃ l, (train sk g yArg).1.trainingdates = some l := by
  unfold train
  simp only []
  by_cases hc : g.decompose = true ∧ 1 < g.seasonal.length
  · rw [if_pos hc]
    exact ⟨_, (fitParts_fields sk _ _ 0 _).2.1⟩
  · rw [if_neg hc]
    exact ⟨_, (fitParts_fields sk _ _ 0 _).2.1⟩

theorem predict_decomp (sk : Sklearn) (p : Forecaster) (b : Bool) (t : Int) (X : List FITS) :
    predict sk ({ p with decompose := b }) t X = predict sk p t X := rfl

theorem featuredates_blocks (f : Forecaster) (t : Int)
    (hlen2 : f.X.length = f.laglength.length) :
    (aggregateFeaturedates f t).length = f.laglength.length ∧
    ∀ (i : Nat) (ds : List Int) (L : Nat),
      (aggregateFeaturedates f t)[i]? = some ds → f.laglength[i]? = some L →
        ds.length = L := by
  constructor
  · simp [aggregateFeaturedates, hlen2]
  · intro i ds L hds hL
    obtain ⟨x2, L2, hx2, hL2, he⟩ := getElem?_zipWith_inv _ f.X f.laglength i ds
      (by simpa [aggregateFeaturedates] using hds)
    rw [hL] at hL2
    have hLL : L = L2 := Option.some.inj hL2
    subst he
    rw [List.length_map, List.length_range]
    exact hLL.symm

/-- C1: the claim binds the rollback condition of _aggregate_featuredates to a
NEGATIVE configured lag, but __init__ stores the negation of the constructor
argument (self._lag = -lag, line 202) and the rollback fires when the stored
value is negative (line 236), i.e. when the configured lag is POSITIVE.  For
the engine configured with lag 40 on a 30-day-period calendar, the code rolls
back (feature date 30 for target 65), while the reading of the claim does not
roll back (feature date 60), so the two disagree. -/
theorem claim_C1_counterexample :
    aggregateFeaturedates fLagSc 65 = [[30]] ∧
    aggregateFeaturedatesClaimed fLagSc 65 = [[60]] ∧
    aggregateFeaturedates fLagSc 65 ≠ aggregateFeaturedatesClaimed fLagSc 65 :=
  ⟨rfl, rfl, by decide⟩

/-- C1 (amended): for every engine built by the constructor with lag L, the
feature-date aggregation rolls the target date back one target period exactly
when L is POSITIVE, then normalizes to the period anchor and ADDS L days
(subtracting the stored negated lag), then shifts back 1..laglength periods
per feature in its own calendar. -/
theorem claim_C1_amended (y : FITS) (X : List FITS) (ll : List Nat) (L : Int)
    (mm dc : Bool) (f : Forecaster)
    (h : mkForecaster y X ll L mm dc = Except.ok f) (d : Int) :
    aggregateFeaturedates f d =
      List.zipWith
        (fun (x : FITS) (n : Nat) =>
          (List.range n).map
            (fun (s : Nat) =>
              x.cal.shift (y.cal.shift (if 0 < L then y.cal.shift d (-1) else d) 0 + L)
                (-(1 + (s : Int)))))
        X ll := by
  have e := mkForecaster_ok y X ll L mm dc f h
  subst e
  unfold aggregateFeaturedates issueDate
  dsimp only
  have hif : (if -L < 0 then y.cal.shift d (-1) else d)
      = (if 0 < L then y.cal.shift d (-1) else d) := by
    by_cases hL : 0 < L
    · rw [if_pos (by omega), if_pos hL]
    · rw [if_neg (by omega), if_neg hL]
  rw [hif, sub_neg_eq_add]

/-- C1 (amended) witness at the concrete engine configured with lag 40. -/
theorem claim_C1_witness :
    aggregateFeaturedates fLagSc 65 =
      List.zipWith
        (fun (x : FITS) (n : Nat) =>
          (List.range n).map
            (fun (s : Nat) =>
              x.cal.shift
                (yLagSc.cal.shift (if 0 < (40 : Int) then yLagSc.cal.shift 65 (-1) else 65) 0 + 40)
                (-(1 + (s : Int)))))
        [xLagSc] [1] :=
  claim_C1_amended yLagSc [xLagSc] [1] 40 true false fLagSc rfl 65

/-- C2: the aggregated feature vector has length sum(laglength) and is laid
out feature-major with lags most recent first: position
sum(laglength[0..i-1]) + s holds the value of feature i at the anchor s+1
periods before the issue-date reference. -/
theorem claim_C2 (f : Forecaster) (t : Int) (hX : f.X.length = f.laglength.length) :
    (aggregateFeatures f (aggregateFeaturedates f t) f.X).length = f.laglength.sum ∧
    ∀ (i : Nat) (x : FITS) (L : Nat) (s : Nat),
      f.X[i]? = some x → f.laglength[i]? = some L → s < L →
      (aggregateFeatures f (aggregateFeaturedates f t) f.X)[(f.laglength.take i).sum + s]?
        = some (lookupVal x (x.cal.shift (issueDate f t) (-(1 + (s : Int))))) := by
  obtain ⟨h2, h3⟩ := featuredates_blocks f t hX
  refine ⟨aggregateFeatures_length f _ f.X hX h2 h3, ?_⟩
  intro i x L s hx hL hs
  have hds : (aggregateFeaturedates f t)[i]? =
      some ((List.range L).map (fun (s2 : Nat) => x.cal.shift (issueDate f t) (-(1 + (s2 : Int))))) := by
    unfold aggregateFeaturedates
    exact getElem?_zipWith_some _ f.X f.laglength i x L hx hL
  have hd : ((List.range L).map (fun (s2 : Nat) => x.cal.shift (issueDate f t) (-(1 + (s2 : Int)))))[s]?
      = some (x.cal.shift (issueDate f t) (-(1 + (s : Int)))) := by
    rw [List.getElem?_map, List.getElem?_range hs]
    rfl
  exact aggregateFeatures_getElem f _ f.X hX h2 h3 i x _ L s _ hx hds hL hd

/-- C2 witness: on the concrete engine with laglength [2], slot 1 holds
feature 0 at two periods before the issue reference. -/
theorem claim_C2_witness :
    (aggregateFeatures fLay (aggregateFeaturedates fLay 65) fLay.X)[1]?
      = some (lookupVal xLagSc (xLagSc.cal.shift (issueDate fLay 65) (-2))) :=
  (claim_C2 fLay 65 rfl).2 0 xLagSc 2 1 rfl rfl (by omega)

/-- C3: on the concrete multimodel engine whose second partition collects no
samples, train terminates with the ValueError raised by
StandardScaler.fit_transform on the empty partition arrays (the fit_transform
calls at lines 323-324 precede the emptiness check at line 326), not with the
InsufficientData condition naming annual index 2 that the claim, the spec and
the train docstring describe (the raise at line 337 is unreachable). -/
theorem claim_C3 :
    (train skId fPart none).2 = Except.error PyErr.valueError ∧
    (train skId fPart none).2 ≠ Except.error (PyErr.insufficientDataIndex 2) :=
  ⟨rfl, by decide⟩

/-- C4: cross_validate builds each fold engine by passing the stored self._lag
(already the negation of the configured lag) back through the constructor,
which negates it again (lines 445-446, line 202): on the engine configured
with lag 40 the fold engine computes different feature dates for the same
target date, so the fold engine does not have the same configuration. -/
theorem claim_C4_counterexample :
    Except.map (fun e => aggregateFeaturedates e 65) (cvFoldEngine fLagSc [])
      = Except.ok [[-30]] ∧
    aggregateFeaturedates fLagSc 65 = [[30]] ∧
    Except.map (fun e => aggregateFeaturedates e 65) (cvFoldEngine fLagSc [])
      ≠ Except.ok (aggregateFeaturedates fLagSc 65) :=
  ⟨rfl, rfl, by decide⟩

/-- C4 (amended): the fold engine agrees with the parent on laglength,
multimodel, decompose, the feature list and the target calendar, restricts
the target rows to the fold training set and starts with freshly unfit
estimators and no training dates, but its stored lag is the NEGATION of the
parent stored lag, so the lag convention is flipped whenever lag is not 0. -/
theorem claim_C4_amended (f : Forecaster) (ts : List (Int × Option ℚ)) (fc : Forecaster)
    (h : cvFoldEngine f ts = Except.ok fc) :
    fc.laglength = f.laglength ∧ fc.multimodel = f.multimodel ∧
    fc.decompose = f.decompose ∧ fc.X = f.X ∧ fc.y.ts = ts ∧ fc.y.cal = f.y.cal ∧
    fc.lag = -f.lag ∧ fc.models = List.replicate fc.maxindex none ∧
    fc.trainingdates = none := by
  unfold cvFoldEngine at h
  have e := mkForecaster_ok _ _ _ _ _ _ _ h
  subst e
  exact ⟨rfl, rfl, rfl, rfl, rfl, rfl, rfl, rfl, rfl⟩

/-- C4 (amended) witness at the concrete parent engine and its fold engine. -/
theorem claim_C4_witness :
    fcFold.laglength = fLagSc.laglength ∧ fcFold.multimodel = fLagSc.multimodel ∧
    fcFold.decompose = fLagSc.decompose ∧ fcFold.X = fLagSc.X ∧ fcFold.y.ts = [] ∧
    fcFold.y.cal = fLagSc.y.cal ∧ fcFold.lag = -fLagSc.lag ∧
    fcFold.models = List.replicate fcFold.maxindex none ∧ fcFold.trainingdates = none :=
  claim_C4_amended fLagSc [] fcFold rfl

/-- C5: under crossValidate with k_fold auto, the source resolves
k_fold = min(groupsize, 10), the python 2 two-argument min of a LIST and an
int; an int always compares below a list, so the resolution is 10 regardless
of the group sizes: with groups of sizes 3 and 5 the claim expects 3, and
with a single group of size 1 the claim expects the insufficient-data
condition, but the code resolves 10 in both cases. -/
theorem claim_C5 :
    resolveKfold [3, 5] KfoldArg.auto = Except.ok 10 ∧
    resolveKfold [1] KfoldArg.auto = Except.ok 10 ∧
    (10 : Int) ≠ 3 :=
  ⟨rfl, rfl, by decide⟩

/-- C6: on the concrete engine in the Configured state (never trained),
cross_validate runs to completion instead of terminating with the
model-not-ready condition: it never consults trainingdates. -/
theorem claim_C6_counterexample :
    fOne.trainingdates = none ∧ (crossValidate skId fOne (KfoldArg.val 2)).isOk = true :=
  ⟨rfl, rfl⟩

/-- C6 (amended): predict on an engine in the Configured state terminates
with the model-not-ready condition, which is distinct from the
insufficient-data conditions; cross_validate, however, performs no
readiness check (see the counterexample). -/
theorem claim_C6_amended (sk : Sklearn) (f : Forecaster) (t : Int) (X : List FITS)
    (h1 : f.trainingdates = none) (hX : X.map FITS.mode = f.Xtype) :
    predict sk f t X = Except.error PyErr.modelError ∧
    PyErr.modelError.isInsufficientData = false := by
  refine ⟨?_, rfl⟩
  unfold predict
  rw [if_neg (fun hc => hc hX)]
  simp [h1]

/-- C6 (amended) witness at the concrete untrained engine. -/
theorem claim_C6_witness :
    predict skId fOne 0 [xOne] = Except.error PyErr.modelError ∧
    PyErr.modelError.isInsufficientData = false :=
  claim_C6_amended skId fOne 0 [xOne] rfl rfl

/-- C7: on a trained engine, every slot of the assembled feature vector is
exactly the lookup of its own required date (a missing date yields NaN at
that slot and leaves the others unaffected), and when any slot is NaN,
predict terminates with the insufficient-data condition naming the target
date and returns no result. -/
theorem claim_C7 (sk : Sklearn) (f : Forecaster) (t : Int) (X : List FITS)
    (hX : X.map FITS.mode = f.Xtype)
    (htr : (f.trainingdates.getD []).isEmpty = false)
    (hlen : X.length = f.laglength.length)
    (hlen2 : f.X.length = f.laglength.length)
    (hnan : (aggregateFeatures f (aggregateFeaturedates f t) X).any (fun v => v.isNone) = true) :
    (∀ (i : Nat) (x xc : FITS) (L : Nat) (s : Nat),
        X[i]? = some x → f.X[i]? = some xc → f.laglength[i]? = some L → s < L →
        (aggregateFeatures f (aggregateFeaturedates f t) X)[(f.laglength.take i).sum + s]?
          = some (lookupVal x (xc.cal.shift (issueDate f t) (-(1 + (s : Int)))))) ∧
    predict sk f t X = Except.error (PyErr.insufficientDataDate t) := by
  obtain ⟨h2, h3⟩ := featuredates_blocks f t hlen2
  constructor
  · intro i x xc L s hx hxc hL hs
    have hds : (aggregateFeaturedates f t)[i]? =
        some ((List.range L).map (fun (s2 : Nat) => xc.cal.shift (issueDate f t) (-(1 + (s2 : Int))))) := by
      unfold aggregateFeaturedates
      exact getElem?_zipWith_some _ f.X f.laglength i xc L hxc hL
    have hd : ((List.range L).map (fun (s2 : Nat) => xc.cal.shift (issueDate f t) (-(1 + (s2 : Int)))))[s]?
        = some (xc.cal.shift (issueDate f t) (-(1 + (s : Int)))) := by
      rw [List.getElem?_map, List.getElem?_range hs]
      rfl
    exact aggregateFeatures_getElem f _ X hlen h2 h3 i x _ L s _ hx hds hL hd
  · unfold predict
    rw [if_neg (fun hc => hc hX)]
    simp [htr, hnan]

/-- C7 witness: the trained concrete engine, asked for a date whose lookback
date is absent from the feature series. -/
theorem claim_C7_witness :
    predict skId fOneT 150 [xOne] = Except.error (PyErr.insufficientDataDate 150) :=
  (claim_C7 skId fOneT 150 [xOne] rfl rfl rfl rfl rfl).2

/-- C8: on the trained concrete engine and a complete feature vector, predict
returns the value wrapped as a 1 x 1 matrix — the source returns
invtrans_prediction + seasonal, a (1,1) numpy array (inverse_transform of
prediction.reshape(-1,1)), and cross_validate unwraps it with [0,0] at line
450 — not the scalar float promised by the claim and by the predict
docstring. -/
theorem claim_C8 :
    predict skId fOneT 30 [xOne] = Except.ok [[0]] ∧
    Except.map (fun m => (m.length, m.map List.length)) (predict skId fOneT 30 [xOne])
      = Except.ok (1, [1]) := by
  have h : predict skId fOneT 30 [xOne] = Except.ok [[(0 : ℚ) + 0]] := rfl
  constructor
  · rw [h, add_zero]
  · rw [h]
    rfl

/-- C9: on an engine whose target calendar has maxindex 1, the decomposition
branch of train is skipped (freq = 1 is not greater than 1), so training with
decompose leaves the sole seasonal offset at 0, produces the same training
outcome as the decompose-disabled twin, and every prediction agrees with the
twin. -/
theorem claim_C9 (sk : Sklearn) (y : FITS) (X : List FITS) (ll : List Nat) (L : Int)
    (mm : Bool) (f1 f0 : Forecaster) (yArg : Option FITS) (t : Int) (Xp : List FITS)
    (h1 : y.cal.maxindex = 1)
    (h2 : mkForecaster y X ll L mm true = Except.ok f1)
    (h0 : mkForecaster y X ll L mm false = Except.ok f0) :
    (train sk f1 yArg).1.seasonal = [0] ∧
    (train sk f1 yArg).2 = (train sk f0 yArg).2 ∧
    predict sk (train sk f1 yArg).1 t Xp = predict sk (train sk f0 yArg).1 t Xp := by
  have e1 := mkForecaster_ok y X ll L mm true f1 h2
  have e0 := mkForecaster_ok y X ll L mm false f0 h0
  have hff : f1 = ({ f0 with decompose := true } : Forecaster) := by
    rw [e1, e0]
  have hs0 : f0.seasonal.length ≤ 1 := by
    rw [e0]
    simp [h1]
  have hnd : ¬(f0.decompose = true ∧ 1 < f0.seasonal.length) := by
    rw [e0]
    simp
  have hd := train_decomp sk f0 yArg true hs0
  refine ⟨?_, ?_, ?_⟩
  · rw [hff, hd]
    show (train sk f0 yArg).1.seasonal = [0]
    rw [train_seasonal sk f0 yArg hnd, e0]
    simp [h1]
  · rw [hff, hd]
  · rw [hff, hd]
    exact predict_decomp sk (train sk f0 yArg).1 true t Xp

/-- C9 witness at the concrete decompose-enabled and decompose-disabled
engines over the maxindex-1 calendar. -/
theorem claim_C9_witness :
    (train skId fDec1 none).1.seasonal = [0] ∧
    (train skId fDec1 none).2 = (train skId fDec0 none).2 ∧
    predict skId (train skId fDec1 none).1 30 [xOne]
      = predict skId (train skId fDec0 none).1 30 [xOne] :=
  claim_C9 skId yOne [xOne] [1] 0 true fDec1 fDec0 none 30 [xOne] rfl rfl rfl

/-- C10: train overwrites trainingdates with the collected sample dates
before fitting any partition (line 320), so after any failed train call the
engine holds a populated trainingdates and a subsequent predict with a
matching feature list does not terminate with the model-not-ready
condition. -/
theorem claim_C10 (sk : Sklearn) (f : Forecaster) (yArg : Option FITS) (t : Int)
    (X : List FITS)
    (hfail : (train sk f yArg).2 ≠ Except.ok ())
    (hne : ((train sk f yArg).1.trainingdates.getD []).isEmpty = false)
    (hX : X.map FITS.mode = (train sk f yArg).1.Xtype) :
    (train sk f yArg).1.trainingdates ≠ none ∧
    predict sk (train sk f yArg).1 t X ≠ Except.error PyErr.modelError := by
  constructor
  · obtain ⟨l, hl⟩ := train_trainingdates sk f yArg
    rw [hl]
    simp
  · intro hc
    unfold predict at hc
    rw [if_neg (fun hd => hd hX)] at hc
    simp only [hne, Bool.false_eq_true, if_false] at hc
    by_cases ha :
        (aggregateFeatures (train sk f yArg).1
            (aggregateFeaturedates (train sk f yArg).1 t) X).any (fun v => v.isNone) = true
    · simp [ha] at hc
    · simp only [ha, Bool.false_eq_true, if_false] at hc
      split at hc <;> simp_all

/-- C10 witness: the concrete engine whose train fails on the empty second
partition keeps its collected training dates, and predicting a date of the
fitted first partition does not report model-not-ready. -/
theorem claim_C10_witness :
    (train skId fPart none).1.trainingdates ≠ none ∧
    predict skId (train skId fPart none).1 0 [xPart] ≠ Except.error PyErr.modelError :=
  claim_C10 skId fPart none 0 [xPart] (by decide) rfl rfl

end Hydromet
